import Mathlib

/-!
# Verification of `goog.i18n.BidiFormatter` (closure-library)

A shallow embedding of `src/closure/goog/i18n/bidiformatter.js` together with
the parts of its collaborators (`goog.i18n.bidi`, `goog.html.SafeHtml`) that
the formatter uses.  The collaborators are not among the provided sources, so
they are modelled from the specification, as marked in their doc comments.
The formatter's own methods are translated line by line from the source file.
-/

namespace BidiSpec

/-- Modelled from the spec: the `goog.i18n.bidi.Dir` enumeration, `{LTR, RTL,
NEUTRAL}` (the module `goog.i18n.bidi` is not among the provided sources).
The numeric ordering convention is LTR > 0, RTL < 0, NEUTRAL = 0. -/
inductive Dir where
  | ltr
  | rtl
  | neutral
deriving DecidableEq, Repr, BEq

/-- Modelled from the spec: the signed numeric encoding of a `Dir` value
(`LTR > 0`, `RTL < 0`, `NEUTRAL = 0`), used for sign-based comparison. -/
def Dir.toNum : Dir → Int
  | .ltr => 1
  | .rtl => -1
  | .neutral => 0

/-- The formatter's stored context directionality has JavaScript type
`?goog.i18n.bidi.Dir`: a `Dir` value or `null` (unknown).  `none` models
`null`. -/
abbrev ContextDir := Option Dir

/-- `Number(dir)` as applied by the source to a nullable directionality:
JavaScript's `Number(null)` is `0`, and on a `Dir` value it yields the signed
encoding. -/
def dirNum : ContextDir → Int
  | none => 0
  | some d => d.toNum

/-- Modelled from the spec: the four accepted shapes of a context-direction
input to the constructor or `setContextDir` — a `Dir` constant, a signed
number, a boolean, or `null`. -/
inductive DirInput where
  | dir : Dir → DirInput
  | num : Int → DirInput
  | bool : Bool → DirInput
  | null : DirInput
deriving DecidableEq, Repr

/-- Modelled from the spec: `goog.i18n.bidi.toDir(contextDir, true)` (module
not among the provided sources).  Normalization: a `Dir` constant passes
through with NEUTRAL treated the same as `null` (`opt_noNeutral`); a positive
number is LTR, a negative number RTL, zero unknown; `true` is RTL and `false`
LTR; `null` is unknown. -/
def toDir : DirInput → ContextDir
  | .dir .neutral => none
  | .dir d => some d
  | .num n => if 0 < n then some .ltr else if n < 0 then some .rtl else none
  | .bool b => some (if b then .rtl else .ltr)
  | .null => none

/-- Modelled from the spec: the invisible Unicode directional characters of
`goog.i18n.bidi.Format` (module not among the provided sources): the
left-to-right mark U+200E. -/
def Format.LRM : String := "\u200E"

/-- Modelled from the spec: the right-to-left mark U+200F. -/
def Format.RLM : String := "\u200F"

/-- Modelled from the spec: the left-to-right embedding character U+202A. -/
def Format.LRE : String := "\u202A"

/-- Modelled from the spec: the right-to-left embedding character U+202B. -/
def Format.RLE : String := "\u202B"

/-- Modelled from the spec: the pop-directional-formatting character
U+202C. -/
def Format.PDF : String := "\u202C"

/-- Modelled from the spec: the estimation functions of `goog.i18n.bidi`
(module not among the provided sources) are abstracted as an oracle: an
overall-direction estimator and the two exit-direction predicates, each a pure
function of the text and the is-HTML flag.  The formatter's properties are
proved for every such oracle. -/
structure BidiEstimator where
  estimateDirection : String → Bool → Dir
  endsWithRtl : String → Bool → Bool
  endsWithLtr : String → Bool → Bool

/-- A concrete estimator (everything neutral), used to evaluate the
formatter on concrete inputs. -/
def trivialEstimator : BidiEstimator :=
  { estimateDirection := fun _ _ => Dir.neutral
    endsWithRtl := fun _ _ => false
    endsWithLtr := fun _ _ => false }

/-- Modelled from the spec: `extractText` on a markup value
(`goog.html.SafeHtml.unwrap`; the `goog.html.SafeHtml` module is not among
the provided sources).  A markup value is modelled by its HTML text, so
extraction is the identity. -/
def extractText (value : String) : String := value

/-- Modelled from the spec: `wrapInContainer(value, attr)` produces
`<container dir="attr">value</container>`, or `<container>value</container>`
when `attr` is null (`goog.html.SafeHtml.create('span', {'dir': attr}, value)`
with the container tag `span`; an undefined attribute value is skipped). -/
def wrapInContainer (value : String) (attr : Option String) : String :=
  match attr with
  | some a => "<span dir=\"" ++ a ++ "\">" ++ value ++ "</span>"
  | none => "<span>" ++ value ++ "</span>"

/-- The possible JavaScript values of the optional `opt_dirReset` argument:
`true`, `false`, `undefined` (omitted) or `null`. -/
inductive JsBool where
  | jtrue
  | jfalse
  | jundefined
  | jnull
deriving DecidableEq, Repr, BEq

/-- JavaScript truthiness of a `JsBool`: only `true` is truthy. -/
def jsTruthy : JsBool → Bool
  | .jtrue => true
  | _ => false

/-- JavaScript loose equality `x == undefined`: holds for `undefined` and for
`null`. -/
def jsLooseEqUndefined : JsBool → Bool
  | .jundefined => true
  | .jnull => true
  | _ => false

/-- `opt_dirReset = opt_dirReset || (opt_dirReset == undefined);` — the
defaulting line shared by `spanWrapWithKnownDir_` (line 352) and
`unicodeWrapWithKnownDir_` (line 465). -/
def dirResetDefault (b : JsBool) : Bool :=
  jsTruthy b || jsLooseEqUndefined b

/-- The `goog.i18n.BidiFormatter` state: the context directionality
`contextDir_` (nullable) and the `alwaysSpan_` flag. -/
structure BidiFormatter where
  contextDir : ContextDir
  alwaysSpan : Bool
deriving DecidableEq, Repr

/-- The constructor: `contextDir_ = goog.i18n.bidi.toDir(contextDir, true)`,
`alwaysSpan_ = !!opt_alwaysSpan`. -/
def BidiFormatter.make (contextDir : DirInput) (alwaysSpan : Bool) :
    BidiFormatter :=
  { contextDir := toDir contextDir, alwaysSpan := alwaysSpan }

/-- `setContextDir`: stores `goog.i18n.bidi.toDir(contextDir, true)`
(source lines 125–128). -/
def BidiFormatter.setContextDir (f : BidiFormatter) (contextDir : DirInput) :
    BidiFormatter :=
  { f with contextDir := toDir contextDir }

/-- `setAlwaysSpan` (source lines 137–140). -/
def BidiFormatter.setAlwaysSpan (f : BidiFormatter) (alwaysSpan : Bool) :
    BidiFormatter :=
  { f with alwaysSpan := alwaysSpan }

/-- `areDirectionalitiesOpposite_(dir1, dir2)`:
`Number(dir1) * Number(dir2) < 0` (source lines 165–169). -/
def areDirectionalitiesOpposite (dir1 dir2 : ContextDir) : Bool :=
  decide (dirNum dir1 * dirNum dir2 < 0)

/-- `dirResetIfNeeded_(str, dir, opt_isHtml, opt_dirReset)` (source lines
186–202): returns LRM or RLM matching the context directionality if
`opt_dirReset` and the directionality or the exit directionality of `str` is
opposite to the context directionality, else the empty string. -/
def BidiFormatter.dirResetIfNeeded (f : BidiFormatter) (E : BidiEstimator)
    (str : String) (dir : Dir) (isHtml : Bool) (dirReset : Bool) : String :=
  if dirReset &&
      (areDirectionalitiesOpposite (some dir) f.contextDir ||
        (f.contextDir == some Dir.ltr && E.endsWithRtl str isHtml) ||
        (f.contextDir == some Dir.rtl && E.endsWithLtr str isHtml)) then
    if f.contextDir == some Dir.ltr then Format.LRM else Format.RLM
  else
    ""

/-- `knownDirAttrValue(dir)` (source lines 234–238): resolves NEUTRAL to the
context directionality, then returns "rtl" for RTL else "ltr". -/
def BidiFormatter.knownDirAttrValue (f : BidiFormatter) (dir : Dir) : String :=
  let resolvedDir : ContextDir :=
    if dir == Dir.neutral then f.contextDir else some dir
  if resolvedDir == some Dir.rtl then "rtl" else "ltr"

/-- `dirAttrValue(str, opt_isHtml)` (source lines 220–223). -/
def BidiFormatter.dirAttrValue (f : BidiFormatter) (E : BidiEstimator)
    (str : String) (isHtml : Bool) : String :=
  f.knownDirAttrValue (E.estimateDirection str isHtml)

/-- `knownDirAttr(dir)` (source lines 267–275): the conditional `dir`
attribute string.  JavaScript's `dir != this.contextDir_` always holds when
the stored context is `null`. -/
def BidiFormatter.knownDirAttr (f : BidiFormatter) (dir : Dir) : String :=
  if some dir != f.contextDir then
    if dir == Dir.rtl then "dir=\"rtl\""
    else if dir == Dir.ltr then "dir=\"ltr\""
    else ""
  else ""

/-- `dirAttr(str, opt_isHtml)` (source lines 252–255). -/
def BidiFormatter.dirAttr (f : BidiFormatter) (E : BidiEstimator)
    (str : String) (isHtml : Bool) : String :=
  f.knownDirAttr (E.estimateDirection str isHtml)

/-- `spanWrapWithKnownDir_(dir, html, opt_dirReset)` (source lines 349–371):
wraps `html` in a span when `alwaysSpan_` or the direction condition holds,
the `dir` attribute present exactly under the direction condition, then
concatenates the reset mark computed from the unwrapped input text. -/
def BidiFormatter.spanWrapWithKnownDirImpl (f : BidiFormatter)
    (E : BidiEstimator) (dir : Dir) (html : String) (optDirReset : JsBool) :
    String :=
  let dirReset := dirResetDefault optDirReset
  let dirCondition := dir != Dir.neutral && some dir != f.contextDir
  let result :=
    if f.alwaysSpan || dirCondition then
      let dirAttribute : Option String :=
        if dirCondition then some (if dir == Dir.rtl then "rtl" else "ltr")
        else none
      wrapInContainer html dirAttribute
    else html
  let str := extractText html
  result ++ f.dirResetIfNeeded E str dir true dirReset

/-- `spanWrapSafeHtmlWithKnownDir(dir, html, opt_dirReset)` (source lines
327–334): estimates the direction from the unwrapped HTML when `dir` is
null. -/
def BidiFormatter.spanWrapSafeHtmlWithKnownDir (f : BidiFormatter)
    (E : BidiEstimator) (dir : Option Dir) (html : String)
    (optDirReset : JsBool) : String :=
  let d := match dir with
    | none => E.estimateDirection (extractText html) true
    | some d => d
  f.spanWrapWithKnownDirImpl E d html optDirReset

/-- `spanWrapSafeHtml(html, opt_dirReset)` (source lines 299–303). -/
def BidiFormatter.spanWrapSafeHtml (f : BidiFormatter) (E : BidiEstimator)
    (html : String) (optDirReset : JsBool) : String :=
  f.spanWrapSafeHtmlWithKnownDir E none html optDirReset

/-- `unicodeWrapWithKnownDir_(dir, str, opt_isHtml, opt_dirReset)` (source
lines 462–479): RLE/LRE + `str` + PDF when `dir` is non-neutral and differs
from the context, else `str`, followed by the reset mark. -/
def BidiFormatter.unicodeWrapWithKnownDirImpl (f : BidiFormatter)
    (E : BidiEstimator) (dir : Dir) (str : String) (isHtml : Bool)
    (optDirReset : JsBool) : String :=
  let dirReset := dirResetDefault optDirReset
  let body :=
    if dir != Dir.neutral && some dir != f.contextDir then
      (if dir == Dir.rtl then Format.RLE else Format.LRE) ++ str ++ Format.PDF
    else str
  body ++ f.dirResetIfNeeded E str dir isHtml dirReset

/-- `unicodeWrapWithKnownDir(dir, str, opt_isHtml, opt_dirReset)` (source
lines 438–445). -/
def BidiFormatter.unicodeWrapWithKnownDir (f : BidiFormatter)
    (E : BidiEstimator) (dir : Option Dir) (str : String) (isHtml : Bool)
    (optDirReset : JsBool) : String :=
  let d := match dir with
    | none => E.estimateDirection str isHtml
    | some d => d
  f.unicodeWrapWithKnownDirImpl E d str isHtml optDirReset

/-- `unicodeWrap(str, opt_isHtml, opt_dirReset)` (source lines 402–406). -/
def BidiFormatter.unicodeWrap (f : BidiFormatter) (E : BidiEstimator)
    (str : String) (isHtml : Bool) (optDirReset : JsBool) : String :=
  f.unicodeWrapWithKnownDir E none str isHtml optDirReset

/-- `markAfterKnownDir(dir, str, opt_isHtml)` (source lines 512–519). -/
def BidiFormatter.markAfterKnownDir (f : BidiFormatter) (E : BidiEstimator)
    (dir : Option Dir) (str : String) (isHtml : Bool) : String :=
  let d := match dir with
    | none => E.estimateDirection str isHtml
    | some d => d
  f.dirResetIfNeeded E str d isHtml true

/-- `markAfter(str, opt_isHtml)` (source lines 493–496). -/
def BidiFormatter.markAfter (f : BidiFormatter) (E : BidiEstimator)
    (str : String) (isHtml : Bool) : String :=
  f.markAfterKnownDir E none str isHtml

/-- `mark()` (source lines 530–540): LRM for LTR context, RLM for RTL
context, empty string otherwise. -/
def BidiFormatter.mark (f : BidiFormatter) : String :=
  match f.contextDir with
  | some Dir.ltr => Format.LRM
  | some Dir.rtl => Format.RLM
  | _ => ""

/-- `startEdge()` (source lines 550–554): 'right' for RTL context, else
'left'. -/
def BidiFormatter.startEdge (f : BidiFormatter) : String :=
  if f.contextDir == some Dir.rtl then "right" else "left"

/-- `endEdge()` (source lines 564–568): 'left' for RTL context, else
'right'. -/
def BidiFormatter.endEdge (f : BidiFormatter) : String :=
  if f.contextDir == some Dir.rtl then "left" else "right"

/-- The formatting and query calls of the public API, for stating frame
properties uniformly. -/
inductive FmtCall where
  | dirAttrValue (str : String) (isHtml : Bool)
  | knownDirAttrValue (dir : Dir)
  | dirAttr (str : String) (isHtml : Bool)
  | knownDirAttr (dir : Dir)
  | spanWrapSafeHtml (html : String) (optDirReset : JsBool)
  | spanWrapSafeHtmlWithKnownDir (dir : Option Dir) (html : String)
      (optDirReset : JsBool)
  | unicodeWrap (str : String) (isHtml : Bool) (optDirReset : JsBool)
  | unicodeWrapWithKnownDir (dir : Option Dir) (str : String) (isHtml : Bool)
      (optDirReset : JsBool)
  | markAfter (str : String) (isHtml : Bool)
  | markAfterKnownDir (dir : Option Dir) (str : String) (isHtml : Bool)
  | mark
  | startEdge
  | endEdge

/-- State-passing form of a formatting call: the method bodies (source lines
143–568) read `contextDir_` and `alwaysSpan_` but contain no assignment to
either field, so each call returns the formatter state it was given together
with its string result. -/
def BidiFormatter.run (f : BidiFormatter) (E : BidiEstimator) :
    FmtCall → BidiFormatter × String
  | .dirAttrValue str isHtml => (f, f.dirAttrValue E str isHtml)
  | .knownDirAttrValue dir => (f, f.knownDirAttrValue dir)
  | .dirAttr str isHtml => (f, f.dirAttr E str isHtml)
  | .knownDirAttr dir => (f, f.knownDirAttr dir)
  | .spanWrapSafeHtml html r => (f, f.spanWrapSafeHtml E html r)
  | .spanWrapSafeHtmlWithKnownDir dir html r =>
      (f, f.spanWrapSafeHtmlWithKnownDir E dir html r)
  | .unicodeWrap str isHtml r => (f, f.unicodeWrap E str isHtml r)
  | .unicodeWrapWithKnownDir dir str isHtml r =>
      (f, f.unicodeWrapWithKnownDir E dir str isHtml r)
  | .markAfter str isHtml => (f, f.markAfter E str isHtml)
  | .markAfterKnownDir dir str isHtml =>
      (f, f.markAfterKnownDir E dir str isHtml)
  | .mark => (f, f.mark)
  | .startEdge => (f, f.startEdge)
  | .endEdge => (f, f.endEdge)

end BidiSpec

namespace BidiSpec

/-- C1: the trailing-mark reset rule of `dirResetIfNeeded_`: the mark is
emitted iff `dirReset` holds and the directionality is opposite to the
context or the exit directionality contradicts the context; the emitted mark
matches the context (LRM for LTR, RLM for RTL); an unknown context never
emits a mark. -/
theorem dirResetIfNeeded_reset_rule (f : BidiFormatter) (E : BidiEstimator)
    (str : String) (dir : Dir) (isHtml dirReset : Bool) :
    (f.dirResetIfNeeded E str dir isHtml dirReset ≠ ""
      ↔ dirReset = true ∧
        (areDirectionalitiesOpposite (some dir) f.contextDir = true
          ∨ (f.contextDir = some Dir.ltr ∧ E.endsWithRtl str isHtml = true)
          ∨ (f.contextDir = some Dir.rtl ∧ E.endsWithLtr str isHtml = true)))
    ∧ (f.contextDir = some Dir.ltr →
        (f.dirResetIfNeeded E str dir isHtml dirReset = Format.LRM
          ∨ f.dirResetIfNeeded E str dir isHtml dirReset = ""))
    ∧ (f.contextDir = some Dir.rtl →
        (f.dirResetIfNeeded E str dir isHtml dirReset = Format.RLM
          ∨ f.dirResetIfNeeded E str dir isHtml dirReset = ""))
    ∧ (f.contextDir = none → f.dirResetIfNeeded E str dir isHtml dirReset = "") := by
  obtain ⟨ctx, alw⟩ := f
  cases dirReset <;> cases dir <;>
    rcases ctx with _ | (_ | _ | _) <;>
    cases hr : E.endsWithRtl str isHtml <;>
    cases hl : E.endsWithLtr str isHtml <;>
    simp [BidiFormatter.dirResetIfNeeded, areDirectionalitiesOpposite,
      dirNum, Dir.toNum, Format.LRM, Format.RLM, hr, hl] <;>
    decide

/-- C2: the markup wrap decision of `spanWrapWithKnownDir_`: with
`dirCondition = (dir != NEUTRAL) && (dir != contextDir)`, the value is
wrapped in the container iff `alwaysSpan` or `dirCondition`, the direction
attribute ("rtl" for RTL, "ltr" for LTR) present exactly when `dirCondition`
holds and absent when only `alwaysSpan` forced the wrap; otherwise the value
passes through unchanged; and the trailing mark is computed against the
original extracted text, not the wrapped result. -/
theorem spanWrapWithKnownDir_wrap_decision (f : BidiFormatter)
    (E : BidiEstimator) (dir : Dir) (html : String) (optDirReset : JsBool) :
    f.spanWrapWithKnownDirImpl E dir html optDirReset =
      (if f.alwaysSpan = true ∨ (dir ≠ Dir.neutral ∧ some dir ≠ f.contextDir) then
        wrapInContainer html
          (if dir ≠ Dir.neutral ∧ some dir ≠ f.contextDir then
            some (if dir = Dir.rtl then "rtl" else "ltr")
          else none)
      else html)
      ++ f.dirResetIfNeeded E (extractText html) dir true
          (dirResetDefault optDirReset) := by
  obtain ⟨ctx, alw⟩ := f
  cases alw <;> cases dir <;> rcases ctx with _ | (_ | _ | _) <;>
    simp +decide [BidiFormatter.spanWrapWithKnownDirImpl]

/-- C3: `unicodeWrapWithKnownDir_` returns RLE + str + PDF when `dir` is RTL
and differs from the context, LRE + str + PDF when `dir` is LTR and differs
from the context, and `str` unchanged otherwise, in each case followed by the
reset-rule mark; the input text appears verbatim, never altered or
escaped. -/
theorem unicodeWrapWithKnownDir_wrap_decision (f : BidiFormatter)
    (E : BidiEstimator) (dir : Dir) (str : String) (isHtml : Bool)
    (optDirReset : JsBool) :
    f.unicodeWrapWithKnownDirImpl E dir str isHtml optDirReset =
      (if dir = Dir.rtl ∧ some dir ≠ f.contextDir then
        Format.RLE ++ str ++ Format.PDF
      else if dir = Dir.ltr ∧ some dir ≠ f.contextDir then
        Format.LRE ++ str ++ Format.PDF
      else str)
      ++ f.dirResetIfNeeded E str dir isHtml (dirResetDefault optDirReset) := by
  obtain ⟨ctx, alw⟩ := f
  cases dir <;> rcases ctx with _ | (_ | _ | _) <;>
    simp +decide [BidiFormatter.unicodeWrapWithKnownDirImpl]


/-- C4: `knownDirAttr` returns the empty string when `dir` equals the context
directionality; when it differs it returns 'dir="rtl"' for RTL, 'dir="ltr"'
for LTR and the empty string for NEUTRAL; with an unknown context the
comparison always mismatches, so the attribute is emitted for every
non-NEUTRAL direction. -/
theorem knownDirAttr_attribute (f : BidiFormatter) (dir : Dir) :
    (f.knownDirAttr dir =
      if some dir = f.contextDir then ""
      else
        match dir with
        | Dir.rtl => "dir=\"rtl\""
        | Dir.ltr => "dir=\"ltr\""
        | Dir.neutral => "")
    ∧ (f.contextDir = none → dir ≠ Dir.neutral → f.knownDirAttr dir ≠ "") := by
  obtain ⟨ctx, alw⟩ := f
  cases dir <;> rcases ctx with _ | (_ | _ | _) <;>
    simp +decide [BidiFormatter.knownDirAttr]

/-- C5: `knownDirAttrValue` is total onto "rtl" / "ltr": NEUTRAL resolves to
the context directionality, an unknown context defaults to "ltr", and the
result is "rtl" precisely when the resolved directionality is RTL. -/
theorem knownDirAttrValue_total (f : BidiFormatter) (dir : Dir) :
    (f.knownDirAttrValue dir = "rtl" ∨ f.knownDirAttrValue dir = "ltr")
    ∧ (f.knownDirAttrValue dir = "rtl"
        ↔ (if dir = Dir.neutral then f.contextDir else some dir) = some Dir.rtl)
    ∧ (dir = Dir.neutral → f.contextDir = none →
        f.knownDirAttrValue dir = "ltr") := by
  obtain ⟨ctx, alw⟩ := f
  cases dir <;> rcases ctx with _ | (_ | _ | _) <;>
    simp +decide [BidiFormatter.knownDirAttrValue]

/-- C7: `mark()` returns LRM for an LTR context, RLM for an RTL context and
the empty string for an unknown context; repeated calls with unchanged state
return identical results, and after `setContextDir` the next call reflects
the newly normalized context. -/
theorem mark_context_and_idempotence (f : BidiFormatter) (E : BidiEstimator)
    (d : DirInput) :
    ((f.contextDir = some Dir.ltr → f.mark = Format.LRM)
      ∧ (f.contextDir = some Dir.rtl → f.mark = Format.RLM)
      ∧ (f.contextDir = none → f.mark = ""))
    ∧ ((f.run E FmtCall.mark).2 = f.mark
      ∧ ((f.run E FmtCall.mark).1.run E FmtCall.mark).2 = f.mark)
    ∧ (f.setContextDir d).mark = (BidiFormatter.make d f.alwaysSpan).mark := by
  obtain ⟨ctx, alw⟩ := f
  rcases ctx with _ | (_ | _ | _) <;>
    simp +decide [BidiFormatter.mark, BidiFormatter.run,
      BidiFormatter.setContextDir, BidiFormatter.make]

/-- C8: two directionalities are opposite iff the product of their signed
numeric encodings is strictly negative; NEUTRAL (encoded 0) and unknown
(`null`, numerically 0) are never opposite to anything, and the relation is
symmetric. -/
theorem areDirectionalitiesOpposite_sign (d1 d2 : ContextDir) :
    (areDirectionalitiesOpposite d1 d2 = true ↔ dirNum d1 * dirNum d2 < 0)
    ∧ areDirectionalitiesOpposite d1 (some Dir.neutral) = false
    ∧ areDirectionalitiesOpposite (some Dir.neutral) d2 = false
    ∧ areDirectionalitiesOpposite d1 none = false
    ∧ areDirectionalitiesOpposite none d2 = false
    ∧ areDirectionalitiesOpposite d1 d2 = areDirectionalitiesOpposite d2 d1 := by
  rcases d1 with _ | (_ | _ | _) <;> rcases d2 with _ | (_ | _ | _) <;> decide


/-- C6: round trip of the markup wrap: when the reset flag is explicitly
false, the context directionality already matches `dir`, and `alwaysSpan` is
unset, `spanWrapWithKnownDir_` returns the value unchanged — no container and
no trailing mark. -/
theorem spanWrapWithKnownDir_roundTrip (f : BidiFormatter) (E : BidiEstimator)
    (dir : Dir) (html : String) (hctx : f.contextDir = some dir)
    (halw : f.alwaysSpan = false) :
    f.spanWrapWithKnownDirImpl E dir html JsBool.jfalse = html := by
  obtain ⟨ctx, alw⟩ := f
  simp only at hctx halw
  subst hctx halw
  cases dir <;>
    simp +decide [BidiFormatter.spanWrapWithKnownDirImpl,
      BidiFormatter.dirResetIfNeeded, dirResetDefault, jsTruthy,
      jsLooseEqUndefined]

/-- Witness for C6: a concrete LTR-context formatter with `alwaysSpan` unset
passes the value "abc" through unchanged when the reset flag is false. -/
theorem spanWrapWithKnownDir_roundTrip_witness :
    (BidiFormatter.mk (some Dir.ltr) false).contextDir = some Dir.ltr
    ∧ (BidiFormatter.mk (some Dir.ltr) false).alwaysSpan = false
    ∧ (BidiFormatter.mk (some Dir.ltr) false).spanWrapWithKnownDirImpl
        trivialEstimator Dir.ltr "abc" JsBool.jfalse = "abc" :=
  ⟨rfl, rfl,
    spanWrapWithKnownDir_roundTrip (BidiFormatter.mk (some Dir.ltr) false)
      trivialEstimator Dir.ltr "abc" rfl rfl⟩

/-- C9: no formatting or query call mutates the formatter state: each call
returns the `contextDir` and `alwaysSpan` fields it was given, and only the
explicit setters change them. -/
theorem run_state_frame (f : BidiFormatter) (E : BidiEstimator) (c : FmtCall)
    (d : DirInput) (b : Bool) :
    ((f.run E c).1.contextDir = f.contextDir
      ∧ (f.run E c).1.alwaysSpan = f.alwaysSpan)
    ∧ (f.setContextDir d).contextDir = toDir d
    ∧ (f.setContextDir d).alwaysSpan = f.alwaysSpan
    ∧ (f.setAlwaysSpan b).alwaysSpan = b
    ∧ (f.setAlwaysSpan b).contextDir = f.contextDir := by
  refine ⟨?_, rfl, rfl, rfl, rfl⟩
  cases c <;> exact ⟨rfl, rfl⟩

/-- C10: in both wrap operations the optional reset argument defaults to
true when omitted (`undefined`) or passed as `null`, and the effective reset
flag is false exactly when the caller passes `false`. -/
theorem dirReset_defaulting (f : BidiFormatter) (E : BidiEstimator)
    (dir : Dir) (html str : String) (isHtml : Bool) (b : JsBool) :
    (dirResetDefault b = false ↔ b = JsBool.jfalse)
    ∧ f.spanWrapWithKnownDirImpl E dir html JsBool.jundefined
        = f.spanWrapWithKnownDirImpl E dir html JsBool.jtrue
    ∧ f.spanWrapWithKnownDirImpl E dir html JsBool.jnull
        = f.spanWrapWithKnownDirImpl E dir html JsBool.jtrue
    ∧ f.unicodeWrapWithKnownDirImpl E dir str isHtml JsBool.jundefined
        = f.unicodeWrapWithKnownDirImpl E dir str isHtml JsBool.jtrue
    ∧ f.unicodeWrapWithKnownDirImpl E dir str isHtml JsBool.jnull
        = f.unicodeWrapWithKnownDirImpl E dir str isHtml JsBool.jtrue := by
  refine ⟨?_, rfl, rfl, rfl, rfl⟩
  cases b <;> decide


end BidiSpec
